import Mathlib

/-!
Formal verification of the laser-speckle exposure/intensity control logic.

This file gives a shallow embedding, in Lean, of the core numeric code of the
repository and proves (or refutes) the frozen specification claims against it:

* the per-cycle adjustment computation of the decision engine
  (`calculate_current_adjustment` in `laser_speckle_UI/updated_widget.py`),
  together with the fusion/clamping done by `generate_analysis`;
* the histogram-saturation estimator (`analyze_saturation_by_histogram` in
  `histogram_saturation_analyzer.py`) and the error path through
  `ImageAnalyzer.analyze_image` (`laser_speckle_UI/modules/analysis/analyzer.py`);
* the pixel-count-saturation estimator (`analyze_saturation_by_pixel_count` in
  `saturation_pixel_count_analyzer.py`);
* the contrast estimator (`analyze_contrast` in `contrast_analyzer.py`);
* the radial weight field builders (`create_radial_weight_mask`, both the
  squared-Gaussian analyzer variant and the flat-top variant of
  `updated_widget.py`).

Python floats are modelled by `ℚ` wherever only field arithmetic and
comparisons occur, and by `ℝ` (with `Real.exp`/`Real.sqrt`) where the code
uses transcendental functions.  Images are lists (or grids) of natural-number
samples with rational per-pixel weights.  Report dictionaries become
structures holding exactly the fields the decision logic reads; fields of the
Python result dictionaries that only feed plotting/visualisation are omitted.
A dictionary key read with `.get(k, d)` is modelled as a plain field (a dict
missing the key is indistinguishable from one holding `d`); keys tested with
`"k" in results` are modelled as `Option` fields.
-/

namespace LaserSpeckle

/-- Python `int(x)`: truncation of a float toward zero, as used by
`generate_analysis` (`int(current_value + final_adjustment)`) and by the
threshold computations `int(max_possible_value * fraction)`. -/
def pyInt (q : ℚ) : ℤ := if q < 0 then -⌊-q⌋ else ⌊q⌋

/-- Python `lst.append(x)` followed by `if len(lst) > 5: lst.pop(0)`: the
rolling-history push with capacity 5 used for `last_mean_values` and
`last_adjustment_values`. -/
def pushCap5 (l : List ℚ) (x : ℚ) : List ℚ :=
  let l2 := l ++ [x]
  if 5 < l2.length then l2.tail else l2

/-- Python negative indexing `l[-(i+1)]` for a list of floats (only used
under guards ensuring the index is in range; defaults to `0` otherwise). -/
def back (l : List ℚ) (i : ℕ) : ℚ := l.getD (l.length - 1 - i) 0

/-- Python's builtin `abs` on a float, modelled on `ℚ`. -/
def pyabs (q : ℚ) : ℚ := if q < 0 then -q else q

/-- Python's builtin `min` on two floats, modelled on `ℚ`. -/
def pymin (a b : ℚ) : ℚ := if a ≤ b then a else b

/-- Python's builtin `max` on two floats, modelled on `ℚ`. -/
def pymax (a b : ℚ) : ℚ := if a ≤ b then b else a

lemma pyabs_eq (q : ℚ) : pyabs q = |q| := by
  unfold pyabs
  split_ifs with h
  · exact (abs_of_neg h).symm
  · exact (abs_of_nonneg (le_of_not_lt h)).symm

lemma pymin_eq (a b : ℚ) : pymin a b = min a b := by
  unfold pymin
  split_ifs with h
  · exact (min_eq_left h).symm
  · exact (min_eq_right (le_of_not_le h)).symm

lemma pymax_eq (a b : ℚ) : pymax a b = max a b := by
  unfold pymax
  split_ifs with h
  · exact (max_eq_right h).symm
  · exact (max_eq_left (le_of_not_le h)).symm

/-- The mutable instance attributes of `LaserSpeckleUI` that
`calculate_current_adjustment` reads and writes: the controller state of the
decision engine.  `current_value` is initialised to 20 and the histories are
empty on construction (`updated_widget.py` lines 232-258). -/
structure EngineState where
  current_value : ℚ
  prev_high_sum : Option ℚ
  stable_count : ℕ
  last_mean_values : List ℚ
  last_adjustment_values : List ℚ
  deriving Repr, DecidableEq

/-- The freshly-constructed controller state (`__init__`):
`current_value = 20`, no previous reading, zero stable count, empty
histories. -/
def freshEngineState : EngineState :=
  { current_value := 20, prev_high_sum := none, stable_count := 0,
    last_mean_values := [], last_adjustment_values := [] }

/-- The analysis-results dictionary as read by
`calculate_current_adjustment`.  Fields read via `results.get(key, default)`
are plain fields (absence is indistinguishable from holding the default);
the keys tested with `"key" in results` (`is_saturated`, `saturated_pixels`,
`mean_contrast`) are `Option` fields. -/
structure Results where
  highest_bin_percentage : ℚ
  weighted_saturation_percentage : ℚ
  high_intensity_sum : ℚ
  weighted_mean : ℚ
  is_saturated : Option Bool
  saturated_pixels : Option ℚ
  total_pixels : ℚ
  max_value : ℚ
  mean_contrast : Option ℚ
  deriving Repr, DecidableEq

/-- The analysis-method string passed to `calculate_current_adjustment`:
one of `"histogram"`, `"pixel_count"`, `"contrast"`, or any other string
(which selects no branch). -/
inductive Method where
  | histogram
  | pixel_count
  | contrast
  | other
  deriving Repr, DecidableEq

/-- Stable-reading counter update (`updated_widget.py` lines 1297-1308): if a
previous `high_sum` was recorded and the new one differs by less than `0.1`,
increment `stable_count`; if it differs by at least `0.1`, reset it to 0; on
the very first reading leave it unchanged. -/
def stabilityUpdate (prev : Option ℚ) (stable : ℕ) (highSum : ℚ) : ℕ :=
  match prev with
  | none => stable
  | some p => if pyabs (highSum - p) < 1/10 then stable + 1 else 0

/-- The histogram decision ladder, CASE 0 through CASE 9
(`updated_widget.py` lines 1313-1523), a pure function of the current
actuator percentage, the recent mean history, and the report metrics. -/
def histLadder (cur : ℚ) (means : List ℚ)
    (normMean highestBin weightedSat highSum : ℚ) : ℚ :=
  if normMean < 2 ∨ highSum < 1/100 then
    -- CASE 0: extremely dark
    let a := if normMean < 1 then 3 else if normMean < 2 then 2 else 1
    let a := if cur = 19 then 1 else a
    if cur ≤ 20 ∧ 18 ≤ cur ∧ 2 ≤ means.length ∧
        means.dropLast.any (fun v => decide (30 < v)) then 3/10 else a
  else if normMean < 28 ∨ highSum < 21/2 then
    -- CASE 1: significant undersaturation (40*0.7 = 28, 35*0.3 = 10.5)
    3/2
  else if 5 < highestBin ∨ 2 < weightedSat ∨ 135 < highSum then
    -- CASE 2: significant oversaturation (45*3 = 135)
    let a := if 60 < highSum then -(1/2) else if 40 < highSum then -(3/10)
             else if 20 < highSum then -(1/5) else -(1/10)
    let a := if cur = 21 then -1 else a
    if cur ≤ 20 ∧ 19 ≤ cur ∧ 2 ≤ means.length ∧
        means.dropLast.any (fun v => decide (v < 10)) then -(1/10) else a
  else if 2 < highestBin ∨ 1 < weightedSat then
    -- CASE 3: general saturation
    if 7/2 < highestBin ∨ 3/2 < weightedSat then -(2/5) else -(1/5)
  else if normMean < 40 ∧ highSum < 45 then
    -- CASE 4: mean too low, saturation acceptable
    let md := 40 - normMean
    if 15 < md then 3/2 else if 7 < md then 1 else if 3 < md then 7/10 else 3/10
  else if 60 < normMean ∧ 35 < highSum then
    -- CASE 5: mean too high with some saturation
    if 15 < normMean - 60 then -(1/2) else -(1/5)
  else if 40 ≤ normMean ∧ normMean ≤ 60 ∧ highSum < 35 then
    -- CASE 6: mean good, saturation too low
    if 10 < 35 - highSum then 1 else 1/2
  else if 40 ≤ normMean ∧ normMean ≤ 60 ∧ 45 < highSum then
    -- CASE 7: mean good, saturation too high
    if 10 < highSum - 45 then -(1/2) else -(1/5)
  else if 40 ≤ normMean ∧ normMean ≤ 60 ∧ 35 ≤ highSum ∧ highSum ≤ 45 then
    -- CASE 8: optimal
    0
  else
    -- CASE 9: proportional fallback
    let mf :=
      if normMean < 40 then
        let md := 40 - normMean
        pymin 2 (if md < 3 then md * (1/10)
               else if md < 8 then 3/10 + (md - 3) * (3/20)
               else 21/20 + (md - 8) * (1/4))
      else if 60 < normMean then
        let me := normMean - 60
        pymax (-2) (if me < 3 then -me * (1/10)
                  else if me < 8 then -(3/10) - (me - 3) * (3/20)
                  else -(21/20) - (me - 8) * (1/4))
      else 0
    let sf :=
      if highSum < 35 then
        let sd := 35 - highSum
        pymin (3/2) (if sd < 1/10 then sd * (4/5)
                   else if sd < 3/10 then 2/25 + (sd - 1/10) * 2
                   else 12/25 + (sd - 3/10) * 1)
      else if 45 < highSum then
        let se := highSum - 45
        pymax (-(3/2)) (if se < 1/10 then -se * (4/5)
                      else if se < 3/10 then -(2/25) - (se - 1/10) * 2
                      else -(12/25) - (se - 3/10) * 1)
      else 0
    let cf := mf * (3/5) + sf * (2/5)
    if pyabs cf < 1/10 then cf * (1/2)
    else if pyabs cf < 1/2 then cf * (3/5)
    else cf * (4/5)

/-- Direction-dependent stability damping (`updated_widget.py` lines
1525-1546): after at least 2 stable readings a nonzero adjustment is scaled
by `(1 - damping)`, with extra damping in the critical 19-21% region. -/
def histDamping (stable : ℕ) (cur a : ℚ) : ℚ :=
  if 2 ≤ stable ∧ a ≠ 0 then
    let d := if 0 < a then pymin (3/5) ((stable : ℚ) * (3/20))
             else pymin (4/5) ((stable : ℚ) * (1/5))
    let d := if 19 ≤ cur ∧ cur ≤ 21 then
               (if 5 ≤ stable then 9/10 else pymin (4/5) (d + 1/5))
             else d
    a * (1 - d)
  else a

/-- Direction-dependent hysteresis of the histogram branch
(`updated_widget.py` lines 1548-1565): small decreases (< 0.07) and small
increases (< 0.02) are zeroed, with larger thresholds in the critical
19-21% region. -/
def histHysteresis (cur a : ℚ) : ℚ :=
  if a < 0 ∧ pyabs a < 7/100 then 0
  else if 0 < a ∧ pyabs a < 1/50 then 0
  else if 19 ≤ cur ∧ cur ≤ 21 then
    (if a < 0 ∧ pyabs a < 3/20 then 0
     else if 0 < a ∧ pyabs a < 1/10 then 0
     else a)
  else a

/-- The `method == "histogram"` branch of `calculate_current_adjustment`:
returns the normalized mean, the branch adjustment, and the updated state
(stability counter and `prev_high_sum`; this branch does not append to
`last_mean_values`). -/
def histogramBranch (st : EngineState) (r : Results) : ℚ × ℚ × EngineState :=
  let normMean := r.weighted_mean / 255 * 100
  let stable := stabilityUpdate st.prev_high_sum st.stable_count r.high_intensity_sum
  let a0 := histLadder st.current_value st.last_mean_values normMean
              r.highest_bin_percentage r.weighted_saturation_percentage r.high_intensity_sum
  let a1 := histDamping stable st.current_value a0
  let a2 := histHysteresis st.current_value a1
  (normMean, a2,
   { st with stable_count := stable, prev_high_sum := some r.high_intensity_sum })

/-- The saturated sub-ladder of the `pixel_count` branch
(`updated_widget.py` lines 1579-1594). -/
def pixelLadderSat (satPercent : ℚ) : ℚ :=
  if 2 < satPercent then -5
  else if 1 < satPercent then -2
  else if 1/2 < satPercent then -1
  else -(1/2)

/-- The unsaturated sub-ladder of the `pixel_count` branch
(`updated_widget.py` lines 1616-1653). -/
def pixelLadderUnsat (maxVal satPixels totalPixels : ℚ) : ℚ :=
  let pixelPercentage := satPixels / totalPixels * 100
  if satPixels = 0 then
    (if maxVal < 50 then 3
     else if maxVal < 100 then 3/2
     else if maxVal < 150 then 1
     else if maxVal < 180 then 7/10
     else if maxVal < 220 then 1/2
     else 3/10)
  else if 35 ≤ pixelPercentage ∧ pixelPercentage ≤ 45 then 0
  else if 45 < pixelPercentage ∧ pixelPercentage ≤ 55 then -(1/2)
  else if 55 < pixelPercentage ∧ pixelPercentage ≤ 65 then -1
  else -2

/-- The `method == "pixel_count"` branch of `calculate_current_adjustment`
(`updated_widget.py` lines 1567-1653): if the report says saturated, the
estimated normalized mean 70 is pushed into the mean history and the
saturated ladder runs; otherwise, when the `saturated_pixels` key exists,
the estimate `(max_value/255)*100` is pushed and the unsaturated ladder
runs; with neither key nothing happens. -/
def pixelCountBranch (st : EngineState) (r : Results) : ℚ × ℚ × EngineState :=
  match r.is_saturated with
  | some true =>
      let normMean : ℚ := 70
      (normMean, pixelLadderSat r.weighted_saturation_percentage,
       { st with last_mean_values := pushCap5 st.last_mean_values normMean })
  | _ =>
      match r.saturated_pixels with
      | some sp =>
          let normMean := r.max_value / 255 * 100
          (normMean, pixelLadderUnsat r.max_value sp r.total_pixels,
           { st with last_mean_values := pushCap5 st.last_mean_values normMean })
      | none => (0, 0, st)

/-- The contrast ladder (`updated_widget.py` lines 1684-1723). -/
def contrastLadder (c : ℚ) : ℚ :=
  if c < 1/200 then 3
  else if c < 1/50 then 2
  else if c < 1/20 then 1
  else if c < 2/25 then 1
  else if c < 9/100 then 1/2
  else if 9/100 ≤ c ∧ c ≤ 13/50 then 0
  else if 13/50 < c ∧ c ≤ 7/25 then -(1/2)
  else if 7/25 < c ∧ c ≤ 8/25 then -1
  else if 8/25 < c ∧ c ≤ 2/5 then -2
  else -(1/2)

/-- Normalized-mean estimate used by the contrast branch for oscillation
detection (`updated_widget.py` lines 1664-1671). -/
def contrastNormMean (c : ℚ) : ℚ :=
  if c < 1/50 then 5 else if 3/10 < c then 60 else 30

/-- The `method == "contrast"` branch of `calculate_current_adjustment`
(`updated_widget.py` lines 1655-1731): active only when the report carries
a `mean_contrast` key. -/
def contrastBranch (st : EngineState) (r : Results) : ℚ × ℚ × EngineState :=
  match r.mean_contrast with
  | some c =>
      let normMean := contrastNormMean c
      (normMean, contrastLadder c,
       { st with last_mean_values := pushCap5 st.last_mean_values normMean })
  | none => (0, 0, st)

/-- Trailing hysteresis common to all methods (`updated_widget.py` lines
1733-1737): adjustments of magnitude below `min_adjustment_threshold = 0.3`
are zeroed. -/
def globalHysteresis (a : ℚ) : ℚ := if pyabs a < 3/10 then 0 else a

/-- Asymmetric final limits (`updated_widget.py` lines 1742-1749):
increases are capped at `+3.0`, decreases at `-0.5`. -/
def clampAsym (a : ℚ) : ℚ := if 0 < a then pymin 3 a else pymax (-(1/2)) a

/-- Oscillation test (`updated_widget.py` lines 1758-1773): large (>30)
jumps between the last three recorded means, or a sign alternation between
the two most recent recorded adjustments. -/
def isOscillating (means adjs : List ℚ) : Bool :=
  (decide (3 ≤ means.length) &&
     (decide (30 < pyabs (back means 0 - back means 1)) &&
      decide (30 < pyabs (back means 1 - back means 2)))) ||
  (decide (3 ≤ adjs.length) &&
     ((decide (0 < back adjs 0) && decide (back adjs 1 < 0)) ||
      (decide (back adjs 0 < 0) && decide (0 < back adjs 1))))

/-- Anti-oscillation shrink (`updated_widget.py` lines 1759-1791): with at
least 3 recorded means and adjustments and oscillation detected, a decrease
from a bright state (`norm_mean > 40`) becomes `max(-0.1, a/5)` and an
increase from a dark state (`norm_mean < 10`) becomes `min(0.5, a/2)`. -/
def oscillationAdjust (normMean a : ℚ) (means adjs : List ℚ) : ℚ :=
  if 3 ≤ means.length ∧ 3 ≤ adjs.length then
    if isOscillating means adjs then
      if 40 < normMean ∧ a < 0 then pymax (-(1/10)) (a / 5)
      else if normMean < 10 ∧ 0 < a then pymin (1/2) (a / 2)
      else a
    else a
  else a

/-- The method-independent tail of `calculate_current_adjustment`
(`updated_widget.py` lines 1733-1793): global hysteresis, asymmetric
clamping, recording of the clamped adjustment into the rolling history, and
the anti-oscillation shrink of the returned value. -/
def finishAdjustment (st : EngineState) (normMean a : ℚ) : ℚ × EngineState :=
  let a1 := globalHysteresis a
  let a2 := clampAsym a1
  let adjs := pushCap5 st.last_adjustment_values a2
  let a3 := oscillationAdjust normMean a2 st.last_mean_values adjs
  (a3, { st with last_adjustment_values := adjs })

/-- `calculate_current_adjustment(self, results, method)` of
`updated_widget.py` (lines 1238-1793): dispatch on the method string, then
the common tail.  Returns the adjustment and the updated engine state. -/
def calculateCurrentAdjustment (st : EngineState) (r : Results) (m : Method) :
    ℚ × EngineState :=
  match m with
  | .histogram =>
      let t := histogramBranch st r
      finishAdjustment t.2.2 t.1 t.2.1
  | .pixel_count =>
      let t := pixelCountBranch st r
      finishAdjustment t.2.2 t.1 t.2.1
  | .contrast =>
      let t := contrastBranch st r
      finishAdjustment t.2.2 t.1 t.2.1
  | .other => finishAdjustment st 0 0

/-- Fusion of the per-method adjustments (`generate_analysis`,
`updated_widget.py` line 784): the arithmetic mean of the list. -/
def fusedAdjustment (l : List ℚ) : ℚ := l.sum / (l.length : ℚ)

/-- The target actuator percentage computed from the fused adjustment
(`generate_analysis`, `updated_widget.py` line 789):
`max(0, min(100, int(current_value + final_adjustment)))`. -/
def targetPercent (cur fused : ℚ) : ℤ :=
  max 0 (min 100 (pyInt (cur + fused)))

end LaserSpeckle

namespace LaserSpeckle

lemma clampAsym_bounds (a : ℚ) : -(1/2) ≤ clampAsym a ∧ clampAsym a ≤ 3 := by
  unfold clampAsym
  simp only [pymin_eq, pymax_eq]
  split_ifs with h
  · refine ⟨?_, min_le_left _ _⟩
    have h2 : (0:ℚ) < min 3 a := lt_min (by norm_num) h
    linarith
  · push_neg at h
    refine ⟨le_max_left _ _, ?_⟩
    have h3 : max (-(1/2)) a ≤ 0 := max_le (by norm_num) h
    linarith

lemma oscillationAdjust_bounds (normMean a : ℚ) (means adjs : List ℚ)
    (h1 : -(1/2) ≤ a) (h2 : a ≤ 3) :
    -(1/2) ≤ oscillationAdjust normMean a means adjs ∧
      oscillationAdjust normMean a means adjs ≤ 3 := by
  unfold oscillationAdjust
  simp only [pymin_eq, pymax_eq]
  split_ifs with hlen hosc hbright hdark
  · constructor
    · exact le_trans (by norm_num) (le_max_left (-(1/10)) (a / 5))
    · exact max_le (by norm_num) (by linarith)
  · constructor
    · exact le_min (by norm_num) (by linarith [hdark.2])
    · exact le_trans (min_le_left _ _) (by norm_num)
  · exact ⟨h1, h2⟩
  · exact ⟨h1, h2⟩
  · exact ⟨h1, h2⟩

lemma finishAdjustment_bounds (st : EngineState) (normMean a : ℚ) :
    -(1/2) ≤ (finishAdjustment st normMean a).1 ∧ (finishAdjustment st normMean a).1 ≤ 3 := by
  have hc := clampAsym_bounds (globalHysteresis a)
  simpa only [finishAdjustment] using
    oscillationAdjust_bounds normMean (clampAsym (globalHysteresis a))
      st.last_mean_values (pushCap5 st.last_adjustment_values (clampAsym (globalHysteresis a)))
      hc.1 hc.2

/-- C1: for every engine state, input metrics report and analysis method, the
adjustment delta returned by `calculate_current_adjustment` lies within
`[-1.0, 3.0]` (in fact within `[-0.5, 3.0]`), and the target actuator
percentage `max(0, min(100, int(current + fused delta)))` computed by
`generate_analysis` from any fused delta always lies in `[0, 100]`. -/
theorem adjustment_delta_and_target_bounds (st : EngineState) (r : Results) (m : Method) :
    (-1 ≤ (calculateCurrentAdjustment st r m).1 ∧ (calculateCurrentAdjustment st r m).1 ≤ 3) ∧
    ∀ cur adjs, (0 : ℤ) ≤ targetPercent cur (fusedAdjustment adjs) ∧
      targetPercent cur (fusedAdjustment adjs) ≤ 100 := by
  constructor
  · have h : ∀ st2 nm a, -1 ≤ (finishAdjustment st2 nm a).1 ∧ (finishAdjustment st2 nm a).1 ≤ 3 := by
      intro st2 nm a
      obtain ⟨hb1, hb2⟩ := finishAdjustment_bounds st2 nm a
      exact ⟨by linarith, hb2⟩
    cases m <;> simp only [calculateCurrentAdjustment] <;> exact h _ _ _
  · intro cur adjs
    unfold targetPercent
    exact ⟨le_max_left _ _, max_le (by norm_num) (min_le_left _ _)⟩

/-- C2: with at least 3 recorded mean readings and 3 recorded deltas, if the
two most recent recorded deltas have opposite signs or the last two gaps
between consecutive recorded means each exceed 30 points, then
`isOscillating` flags oscillation, and the anti-oscillation stage shrinks the
delta: a negative delta from a bright state (normalized mean > 40) becomes
`max(-0.1, a/5)` (magnitude at most `|a|/5`), and a positive delta from a
dark state (normalized mean < 10) becomes `min(0.5, a/2)` (magnitude at most
`|a|/2`); in both cases the magnitude strictly decreases. -/
theorem oscillation_flag_and_shrink (normMean a : ℚ) (means adjs : List ℚ)
    (hm : 3 ≤ means.length) (ha : 3 ≤ adjs.length)
    (htrig : (0 < back adjs 0 ∧ back adjs 1 < 0) ∨ (back adjs 0 < 0 ∧ 0 < back adjs 1) ∨
             (30 < |back means 0 - back means 1| ∧ 30 < |back means 1 - back means 2|)) :
    isOscillating means adjs = true ∧
    (40 < normMean → a < 0 →
       oscillationAdjust normMean a means adjs = max (-(1/10)) (a / 5) ∧
       |oscillationAdjust normMean a means adjs| ≤ |a| / 5 ∧
       |oscillationAdjust normMean a means adjs| < |a|) ∧
    (normMean < 10 → 0 < a →
       oscillationAdjust normMean a means adjs = min (1/2) (a / 2) ∧
       |oscillationAdjust normMean a means adjs| ≤ |a| / 2 ∧
       |oscillationAdjust normMean a means adjs| < |a|) := by
  have hosc : isOscillating means adjs = true := by
    simp only [isOscillating, Bool.or_eq_true, Bool.and_eq_true, decide_eq_true_eq,
      pyabs_eq]
    rcases htrig with ⟨h1, h2⟩ | ⟨h1, h2⟩ | ⟨h1, h2⟩
    · exact Or.inr ⟨ha, Or.inl ⟨h1, h2⟩⟩
    · exact Or.inr ⟨ha, Or.inr ⟨h1, h2⟩⟩
    · exact Or.inl ⟨hm, h1, h2⟩
  have key : oscillationAdjust normMean a means adjs =
      (if 40 < normMean ∧ a < 0 then max (-(1/10)) (a / 5)
       else if normMean < 10 ∧ 0 < a then min (1/2) (a / 2) else a) := by
    unfold oscillationAdjust
    rw [if_pos ⟨hm, ha⟩, hosc, if_pos rfl]
    simp only [pymin_eq, pymax_eq]
  refine ⟨hosc, ?_, ?_⟩
  · intro hnm hneg
    rw [key, if_pos ⟨hnm, hneg⟩]
    have habs : |a| = -a := abs_of_neg hneg
    have hle : |max (-(1/10)) (a / 5)| ≤ |a| / 5 := by
      rcases le_or_lt (a / 5) (-(1/10)) with hc | hc
      · rw [max_eq_left hc]
        rw [show |(-(1/10) : ℚ)| = 1/10 by norm_num]
        rw [habs]; linarith
      · rw [max_eq_right hc.le, abs_div]
        rw [show |(5:ℚ)| = 5 by norm_num]
      -- (equality case)
    have hpos : 0 < |a| := abs_pos.mpr (ne_of_lt hneg)
    exact ⟨rfl, hle, by linarith⟩
  · intro hnm hpos'
    rw [key, if_neg (by rintro ⟨h40, _⟩; linarith), if_pos ⟨hnm, hpos'⟩]
    have habs : |a| = a := abs_of_pos hpos'
    have hle : |min (1/2) (a / 2)| ≤ |a| / 2 := by
      rcases le_or_lt (a / 2) (1/2 : ℚ) with hc | hc
      · rw [min_eq_right hc, abs_div]
        rw [show |(2:ℚ)| = 2 by norm_num]
      · rw [min_eq_left hc.le]
        rw [show |(1/2 : ℚ)| = 1/2 by norm_num]
        rw [habs]; linarith
    have hpos2 : 0 < |a| := abs_pos.mpr (ne_of_gt hpos')
    exact ⟨rfl, hle, by linarith⟩

/-- Witness for C2: a concrete history (sign-alternating recorded deltas)
where oscillation fires and the bright-state decrease `-0.4` is shrunk to
`-0.08 = -0.4/5`. -/
theorem oscillation_flag_and_shrink_witness :
    isOscillating [0, 0, 0] [1, -1, 1] = true ∧
      oscillationAdjust 50 (-(2/5)) [0, 0, 0] [1, -1, 1] = -(2/25) := by
  have h := oscillation_flag_and_shrink 50 (-(2/5)) [0, 0, 0] [1, -1, 1]
    (by decide) (by decide) (by decide)
  refine ⟨h.1, ?_⟩
  rw [(h.2.1 (by norm_num) (by norm_num)).1, max_eq_right (by norm_num)]
  norm_num

/-- Scenario D's report: a histogram report with weighted mean intensity 120
and no high-intensity/saturated mass (as produced by a uniform image at
intensity 120), carrying exactly the keys `analyze_saturation_by_histogram`
returns that the decision engine reads. -/
def uniform120Report : Results :=
  { highest_bin_percentage := 0, weighted_saturation_percentage := 0,
    high_intensity_sum := 0, weighted_mean := 120, is_saturated := none,
    saturated_pixels := none, total_pixels := 1, max_value := 255,
    mean_contrast := none }

/-- First cycle of Scenario D from the fresh controller state. -/
def scenarioD1 : ℚ × EngineState :=
  calculateCurrentAdjustment freshEngineState uniform120Report .histogram

/-- Second cycle of Scenario D (same report again). -/
def scenarioD2 : ℚ × EngineState :=
  calculateCurrentAdjustment scenarioD1.2 uniform120Report .histogram

/-- Third cycle of Scenario D (same report a third time). -/
def scenarioD3 : ℚ × EngineState :=
  calculateCurrentAdjustment scenarioD2.2 uniform120Report .histogram

/-- C3 counterexample: feeding two consecutive identical mean-120 histogram
reports to a fresh engine leaves the stable-reading counter at 1 (not 2) —
on the first frame `prev_high_sum` is `None` so the counter cannot move —
and the second-frame delta equals the first-frame delta (1.0), so it is not
strictly smaller in magnitude; the claim fails on both conjuncts. -/
theorem scenarioD_claim_false :
    scenarioD2.2.stable_count = 1 ∧ scenarioD1.1 = 1 ∧ scenarioD2.1 = 1 ∧
    ¬(scenarioD2.2.stable_count = 2 ∧ |scenarioD2.1| < |scenarioD1.1|) := by
  norm_num [scenarioD2, scenarioD1, uniform120Report, freshEngineState,
    calculateCurrentAdjustment, histogramBranch, stabilityUpdate, histLadder,
    histDamping, histHysteresis, finishAdjustment, globalHysteresis, clampAsym,
    pushCap5, back, isOscillating, oscillationAdjust, pyabs, pymin, pymax]

/-- C3 amended: after two identical frames the stable counter reaches only 1
and damping is not yet applied; after a third identical frame the counter
reaches 2 and the third-frame delta (0.5) is strictly smaller in magnitude
than the first-frame delta (1.0) — stability damping first acts on the third
frame. -/
theorem scenarioD_amended :
    scenarioD2.2.stable_count = 1 ∧ scenarioD2.1 = scenarioD1.1 ∧
    scenarioD3.2.stable_count = 2 ∧ scenarioD1.1 = 1 ∧ scenarioD3.1 = 1/2 ∧
    |scenarioD3.1| < |scenarioD1.1| := by
  norm_num [scenarioD3, scenarioD2, scenarioD1, uniform120Report, freshEngineState,
    calculateCurrentAdjustment, histogramBranch, stabilityUpdate, histLadder,
    histDamping, histHysteresis, finishAdjustment, globalHysteresis, clampAsym,
    pushCap5, back, isOscillating, oscillationAdjust, pyabs, pymin, pymax]
  rw [show |(1/2 : ℚ)| = 1/2 by norm_num]
  norm_num

end LaserSpeckle

namespace LaserSpeckle

/-- Total weight `np.sum(flat_weights)` of a flattened image given as a list
of (sample value, weight) pairs. -/
def totalWeight (px : List (ℕ × ℚ)) : ℚ := (px.map Prod.snd).sum

lemma sum_map_snd_zero : ∀ (l : List (ℕ × ℚ)), (∀ p ∈ l, p.2 = 0) →
    (l.map Prod.snd).sum = 0 := by
  intro l
  induction l with
  | nil => intro _; simp
  | cons p t ih =>
      intro h
      simp only [List.map_cons, List.sum_cons]
      rw [h p (List.mem_cons_self p t), ih (fun q hq => h q (List.mem_cons_of_mem p hq)),
        add_zero]

lemma listSum_congr {l : List (ℕ × ℚ)} {f g : ℕ × ℚ → ℚ}
    (h : ∀ p ∈ l, f p = g p) : (l.map f).sum = (l.map g).sum := by
  induction l with
  | nil => rfl
  | cons p t ih =>
      simp only [List.map_cons, List.sum_cons, h p (List.mem_cons_self p t),
        ih (fun q hq => h q (List.mem_cons_of_mem p hq))]

/-- The report of `analyze_saturation_by_pixel_count`
(`saturation_pixel_count_analyzer.py` lines 164-177), restricted to the
numeric fields the decision logic and the claims read (the visualisation
map and echoed parameters are omitted). -/
structure PixelReport where
  saturated_pixels : ℕ
  saturated_percentage : ℚ
  weighted_saturation : ℚ
  weighted_saturation_percentage : ℚ
  is_saturated : Bool
  deriving Repr, DecidableEq

/-- `analyze_saturation_by_pixel_count(img, saturation_threshold=0.98,
max_weighted_saturation=100)` (`saturation_pixel_count_analyzer.py` lines
96-177): pixels strictly above `int(max_possible_value *
saturation_threshold)` are saturated; both the raw count and the
weight-summed count are reported, and
`is_saturated = weighted_saturation > max_weighted_saturation or
weighted_saturation_percentage > 0.5`. -/
def analyze_saturation_by_pixel_count (is16 : Bool) (px : List (ℕ × ℚ))
    (satFrac maxWeightedSat : ℚ) : PixelReport :=
  let maxPossible : ℕ := if is16 then 65535 else 255
  let satThreshold : ℤ := pyInt ((maxPossible : ℚ) * satFrac)
  let satList := px.filter (fun p => decide (satThreshold < (p.1 : ℤ)))
  let saturatedPixels := satList.length
  let weightedSaturation := (satList.map Prod.snd).sum
  let w := totalWeight px
  { saturated_pixels := saturatedPixels,
    saturated_percentage := (saturatedPixels : ℚ) / (px.length : ℚ) * 100,
    weighted_saturation := weightedSaturation,
    weighted_saturation_percentage := weightedSaturation / w * 100,
    is_saturated := decide (maxWeightedSat < weightedSaturation) ||
      decide (1/2 < weightedSaturation / w * 100) }

/-- The results dictionary handed to the decision engine after a pixel-count
analysis (`generate_analysis`, `updated_widget.py` lines 655-681, passes the
analyzer's dictionary through; keys the engine reads that this dictionary
lacks fall back to their `.get` defaults: `total_pixels` to 1 and
`max_value` to 255). -/
def resultsOfPixelCount (rep : PixelReport) : Results :=
  { highest_bin_percentage := 0,
    weighted_saturation_percentage := rep.weighted_saturation_percentage,
    high_intensity_sum := 0, weighted_mean := 0,
    is_saturated := some rep.is_saturated,
    saturated_pixels := some (rep.saturated_pixels : ℚ),
    total_pixels := 1, max_value := 255, mean_contrast := none }

/-- 8-bit view of a sample: `analyze_saturation_by_histogram` bins 16-bit
images after the scaling `(img / 256).astype(np.uint8)` (integer division);
8-bit samples are used as-is. -/
def conv8 (is16 : Bool) (v : ℕ) : ℕ := if is16 then v / 256 else v

/-- Histogram bin index under `np.histogram(x, bins=256, range=(0, 255))`:
the 256 bins have width `255/256` with the right edge of the last bin
closed, so an integer 8-bit value `v < 255` falls in bin
`⌊v·256/255⌋` (which equals `v`) and `v = 255` in bin 255. -/
def binOf (v : ℕ) : ℕ := if 255 ≤ v then 255 else v * 256 / 255

set_option maxRecDepth 8000 in
lemma binOf_id : ∀ v : ℕ, v ≤ 255 → binOf v = v := by decide

/-- Weighted histogram count of bin `b` (`np.histogram(..., weights=...)`). -/
def histWeight (is16 : Bool) (px : List (ℕ × ℚ)) (b : ℕ) : ℚ :=
  (px.map (fun p => if binOf (conv8 is16 p.1) = b then p.2 else 0)).sum

/-- `hist_percentage = (hist / total_weight) * 100`
(`histogram_saturation_analyzer.py` line 142). -/
def histPercentage (is16 : Bool) (px : List (ℕ × ℚ)) (b : ℕ) : ℚ :=
  histWeight is16 px b / totalWeight px * 100

/-- `high_threshold_8bit = int(255 * high_intensity_threshold)`
(`histogram_saturation_analyzer.py` lines 144-151; identical for both bit
depths). -/
def highThreshold8 (highFrac : ℚ) : ℕ := (pyInt (255 * highFrac)).toNat

/-- `high_intensity_sum = np.sum(hist_percentage[high_threshold_8bit:])`
(`histogram_saturation_analyzer.py` line 155): the sum of the percentage
histogram over bins from the threshold upward. -/
def highIntensitySum (is16 : Bool) (px : List (ℕ × ℚ)) (highFrac : ℚ) : ℚ :=
  Finset.sum ((Finset.range 256).filter (fun b => highThreshold8 highFrac ≤ b))
    (fun b => histPercentage is16 px b)

/-- The report of `analyze_saturation_by_histogram`
(`histogram_saturation_analyzer.py` lines 219-238), restricted to the fields
the decision logic and the claims read. -/
structure HistReport where
  high_intensity_sum : ℚ
  highest_bin_percentage : ℚ
  is_saturated : Bool
  weighted_mean : ℚ
  deriving Repr, DecidableEq

/-- The per-frame analysis failure: on a degenerate weight field whose total
weight is zero, `np.average(flat_img, weights=flat_weights)` raises
`ZeroDivisionError("Weights sum to zero, can't be normalized")` — the
spec's `DataError` category for degenerate inputs. -/
inductive AnalysisError where
  | weightsSumToZero
  deriving Repr, DecidableEq

/-- `analyze_saturation_by_histogram(img, high_intensity_threshold=0.9,
critical_bin_threshold=0.1)` (`histogram_saturation_analyzer.py` lines
98-238).  When the total weight is zero the Python function raises before
returning (the `np.average` call at line 164 checks the weight sum and
raises `ZeroDivisionError`; the NaN-valued percentage intermediates computed
before that point never escape the function), modelled here as
`Except.error`.  Otherwise the verdict is
`is_saturated = highest_bin_percentage > critical_bin_threshold or
high_intensity_sum > 10` and the weighted mean is
`np.average(flat_img, weights=flat_weights)` over the raw samples. -/
def analyze_saturation_by_histogram (is16 : Bool) (px : List (ℕ × ℚ))
    (highFrac critFrac : ℚ) : Except AnalysisError HistReport :=
  if totalWeight px = 0 then .error .weightsSumToZero
  else
    let hiSum := highIntensitySum is16 px highFrac
    let topBin := histPercentage is16 px 255
    .ok { high_intensity_sum := hiSum,
          highest_bin_percentage := topBin,
          is_saturated := decide (critFrac < topBin) || decide (10 < hiSum),
          weighted_mean := (px.map (fun p => (p.1 : ℚ) * p.2)).sum / totalWeight px }

/-- The histogram path of `ImageAnalyzer.analyze_image`
(`laser_speckle_UI/modules/analysis/analyzer.py` lines 112-177): the whole
analysis runs inside `try/except Exception`; a raised per-frame error is
logged (surfaced) and `None` is returned instead of a results dictionary.
The image and its weight field arrive here already flattened. -/
def analyze_image (is16 : Bool) (px : List (ℕ × ℚ)) : Option HistReport :=
  match analyze_saturation_by_histogram is16 px (9/10) (1/10) with
  | .error _ => none
  | .ok rep => some rep

/-- One timer tick of the control loop (`main.py`, `generate_analysis` lines
265-331): run the analysis on the captured frame; when it returns `None`
(a caught per-frame error) the tick does nothing and the loop simply waits
for the next tick; otherwise the report is handed to the downstream
decision/dispatch stage `apply`. -/
def controlTick (apply : EngineState → HistReport → EngineState)
    (st : EngineState) (frame : Bool × List (ℕ × ℚ)) : EngineState :=
  match analyze_image frame.1 frame.2 with
  | none => st
  | some rep => apply st rep

/-- The timer-driven control loop: fold `controlTick` over the captured
frames. -/
def runControlLoop (apply : EngineState → HistReport → EngineState) :
    List (Bool × List (ℕ × ℚ)) → EngineState → EngineState
  | [], st => st
  | f :: fs, st => runControlLoop apply fs (controlTick apply st f)

/-- Spec-side expression for C4: the weighted mass sitting at 8-bit value
255 — the top histogram bin, described directly on the pixels. -/
def topValueMass (is16 : Bool) (px : List (ℕ × ℚ)) : ℚ :=
  (px.map (fun p => if conv8 is16 p.1 = 255 then p.2 else 0)).sum

/-- Spec-side expression for C4: the weighted mass at or above the 8-bit
threshold `t`, described directly on the pixels. -/
def highValueMass (is16 : Bool) (px : List (ℕ × ℚ)) (t : ℕ) : ℚ :=
  (px.map (fun p => if t ≤ conv8 is16 p.1 then p.2 else 0)).sum

end LaserSpeckle

namespace LaserSpeckle

lemma finsetSum_listSum (S : Finset ℕ) (px : List (ℕ × ℚ)) (g : ℕ → ℕ × ℚ → ℚ) :
    Finset.sum S (fun b => (px.map (fun p => g b p)).sum) =
    (px.map (fun p => Finset.sum S (fun b => g b p))).sum := by
  induction px with
  | nil => simp
  | cons p t ih => simp [Finset.sum_add_distrib, ih]

lemma histWeight_top (is16 : Bool) (px : List (ℕ × ℚ))
    (hpx : ∀ p ∈ px, conv8 is16 p.1 ≤ 255) :
    histWeight is16 px 255 = topValueMass is16 px :=
  listSum_congr (fun p hp => by rw [binOf_id _ (hpx p hp)])

lemma highIntensitySum_eq (is16 : Bool) (px : List (ℕ × ℚ)) (highFrac : ℚ)
    (hpx : ∀ p ∈ px, conv8 is16 p.1 ≤ 255) :
    highIntensitySum is16 px highFrac =
      highValueMass is16 px (highThreshold8 highFrac) / totalWeight px * 100 := by
  unfold highIntensitySum histPercentage
  rw [← Finset.sum_mul, ← Finset.sum_div]
  have hnum : Finset.sum ((Finset.range 256).filter (fun b => highThreshold8 highFrac ≤ b))
      (fun b => histWeight is16 px b) = highValueMass is16 px (highThreshold8 highFrac) := by
    unfold histWeight highValueMass
    rw [finsetSum_listSum]
    apply listSum_congr
    intro p hp
    rw [binOf_id _ (hpx p hp), Finset.sum_ite_eq]
    have hmem : conv8 is16 p.1 ∈ (Finset.range 256).filter (fun b => highThreshold8 highFrac ≤ b) ↔
        highThreshold8 highFrac ≤ conv8 is16 p.1 := by
      simp only [Finset.mem_filter, Finset.mem_range]
      exact ⟨fun h => h.2, fun h => ⟨Nat.lt_succ_of_le (hpx p hp), h⟩⟩
    simp only [hmem]
  rw [hnum]

/-- C4: for every image (8- or 16-bit) and weight field with nonzero total
weight, and parameters `0 ≤ high_intensity_threshold ≤ 1`, the
histogram-saturation estimator succeeds and reports `is_saturated = true`
exactly when the weighted percentage of mass in the top histogram bin
(8-bit value 255) exceeds `critical_bin_threshold`, or the weighted
percentage of mass at or above the 8-bit high-intensity threshold
`int(255 * high_intensity_threshold)` exceeds 10 percentage points. -/
theorem histogram_saturation_verdict (is16 : Bool) (px : List (ℕ × ℚ))
    (highFrac critFrac : ℚ) (hW : totalWeight px ≠ 0)
    (h0 : 0 ≤ highFrac) (h1 : highFrac ≤ 1)
    (hpx : ∀ p ∈ px, conv8 is16 p.1 ≤ 255) :
    ∃ rep, analyze_saturation_by_histogram is16 px highFrac critFrac = Except.ok rep ∧
      (rep.is_saturated = true ↔
        critFrac < topValueMass is16 px / totalWeight px * 100 ∨
        10 < highValueMass is16 px (highThreshold8 highFrac) / totalWeight px * 100) := by
  have hrun : analyze_saturation_by_histogram is16 px highFrac critFrac =
      Except.ok { high_intensity_sum := highIntensitySum is16 px highFrac,
                  highest_bin_percentage := histPercentage is16 px 255,
                  is_saturated := decide (critFrac < histPercentage is16 px 255) ||
                    decide (10 < highIntensitySum is16 px highFrac),
                  weighted_mean := (px.map (fun p => (p.1 : ℚ) * p.2)).sum / totalWeight px } := by
    unfold analyze_saturation_by_histogram
    rw [if_neg hW]
  refine ⟨_, hrun, ?_⟩
  have htop : histPercentage is16 px 255 = topValueMass is16 px / totalWeight px * 100 := by
    unfold histPercentage
    rw [histWeight_top is16 px hpx]
  simp only [Bool.or_eq_true, decide_eq_true_eq, htop, highIntensitySum_eq is16 px highFrac hpx]

/-- Witness for C4: a single fully-bright 8-bit pixel of weight 1; the
verdict equivalence holds there. -/
theorem histogram_saturation_verdict_witness :
    totalWeight [((255 : ℕ), (1 : ℚ))] ≠ 0 ∧
    ∃ rep, analyze_saturation_by_histogram false [(255, 1)] (9/10) (1/10) = Except.ok rep ∧
      (rep.is_saturated = true ↔
        1/10 < topValueMass false [(255, 1)] / totalWeight [(255, 1)] * 100 ∨
        10 < highValueMass false [(255, 1)] (highThreshold8 (9/10)) /
          totalWeight [(255, 1)] * 100) :=
  ⟨by norm_num [totalWeight],
   histogram_saturation_verdict false [(255, 1)] (9/10) (1/10)
     (by norm_num [totalWeight]) (by norm_num) (by norm_num) (by decide)⟩

/-- C5: on a degenerate weight field (all weights zero) the
histogram-saturation estimator fails with the zero-weight-sum error
(numpy's `ZeroDivisionError` from `np.average`, the spec's `DataError`
class) instead of returning a report; `ImageAnalyzer.analyze_image` catches
it and surfaces `None` for that frame; and the control loop ignores the
failed tick and continues with the remaining frames, whatever the
downstream decision stage `apply` does. -/
theorem degenerate_weights_error_skips_frame (is16 : Bool) (px : List (ℕ × ℚ))
    (apply : EngineState → HistReport → EngineState)
    (frames : List (Bool × List (ℕ × ℚ))) (st : EngineState)
    (hdeg : ∀ p ∈ px, p.2 = 0) :
    analyze_saturation_by_histogram is16 px (9/10) (1/10) =
      Except.error AnalysisError.weightsSumToZero ∧
    analyze_image is16 px = none ∧
    controlTick apply st (is16, px) = st ∧
    runControlLoop apply ((is16, px) :: frames) st = runControlLoop apply frames st := by
  have hW0 : totalWeight px = 0 := sum_map_snd_zero px hdeg
  have h1 : analyze_saturation_by_histogram is16 px (9/10) (1/10) =
      Except.error AnalysisError.weightsSumToZero := by
    unfold analyze_saturation_by_histogram
    rw [if_pos hW0]
  have h2 : analyze_image is16 px = none := by
    unfold analyze_image
    rw [h1]
  have h3 : controlTick apply st (is16, px) = st := by
    unfold controlTick
    rw [h2]
  refine ⟨h1, h2, h3, ?_⟩
  conv_lhs => rw [runControlLoop]
  rw [h3]

/-- Witness for C5: a single pixel with weight zero, an empty remaining
frame list, and a downstream stage that is never reached. -/
theorem degenerate_weights_error_skips_frame_witness :
    (∀ p ∈ [((0 : ℕ), (0 : ℚ))], p.2 = 0) ∧
    analyze_image false [(0, 0)] = none ∧
    controlTick (fun s _ => s) freshEngineState (false, [(0, 0)]) = freshEngineState := by
  have h := degenerate_weights_error_skips_frame false [(0, 0)] (fun s _ => s) []
    freshEngineState (by decide)
  exact ⟨by decide, h.2.1, h.2.2.1⟩

/-- C6: for a uniform 8-bit image with every pixel at 255 and any weight
field with nonzero total weight, the pixel-count estimator (with its default
parameters `saturation_threshold = 0.98`, `max_weighted_saturation = 100`)
reports `is_saturated = true` and `saturated_percentage = 100`, and the
decision engine's per-cycle computation on that report from the fresh state
returns exactly `-0.5`: a negative delta clamped to the `-0.5` limit. -/
theorem uniform255_pixel_count_decrease (px : List (ℕ × ℚ))
    (hne : px ≠ []) (hall : ∀ p ∈ px, p.1 = 255) (hW : totalWeight px ≠ 0) :
    (analyze_saturation_by_pixel_count false px (49/50) 100).is_saturated = true ∧
    (analyze_saturation_by_pixel_count false px (49/50) 100).saturated_percentage = 100 ∧
    (calculateCurrentAdjustment freshEngineState
        (resultsOfPixelCount (analyze_saturation_by_pixel_count false px (49/50) 100))
        Method.pixel_count).1 = -(1/2) ∧
    (calculateCurrentAdjustment freshEngineState
        (resultsOfPixelCount (analyze_saturation_by_pixel_count false px (49/50) 100))
        Method.pixel_count).1 < 0 := by
  have hthr : pyInt ((255 : ℚ) * (49/50)) = 249 := by
    unfold pyInt
    rw [if_neg (by norm_num)]
    norm_num [Int.floor_eq_iff]
  have hfilter : px.filter (fun p => decide (pyInt (((255 : ℕ) : ℚ) * (49/50)) < (p.1 : ℤ))) = px := by
    rw [List.filter_eq_self]
    intro p hp
    have : p.1 = 255 := hall p hp
    rw [decide_eq_true_eq]
    push_cast [hthr, this]
  have hlen : ((px.length : ℚ)) ≠ 0 := by
    have : px.length ≠ 0 := fun h => hne (List.length_eq_zero.mp h)
    exact_mod_cast this
  have hwsum : (px.map Prod.snd).sum / totalWeight px * 100 = 100 := by
    rw [show (px.map Prod.snd).sum = totalWeight px from rfl, div_self hW, one_mul]
  have hsatp : (analyze_saturation_by_pixel_count false px (49/50) 100).saturated_percentage
      = 100 := by
    unfold analyze_saturation_by_pixel_count
    simp only [Bool.false_eq_true, if_false, hfilter]
    rw [div_self hlen, one_mul]
  have hwsatp : (analyze_saturation_by_pixel_count false px (49/50) 100).weighted_saturation_percentage
      = 100 := by
    unfold analyze_saturation_by_pixel_count
    simp only [Bool.false_eq_true, if_false, hfilter]
    exact hwsum
  have hsat : (analyze_saturation_by_pixel_count false px (49/50) 100).is_saturated = true := by
    unfold analyze_saturation_by_pixel_count
    simp only [Bool.false_eq_true, if_false, hfilter]
    rw [hwsum]
    simp only [Bool.or_eq_true, decide_eq_true_eq]
    exact Or.inr (by norm_num)
  have hfin : (calculateCurrentAdjustment freshEngineState
      (resultsOfPixelCount (analyze_saturation_by_pixel_count false px (49/50) 100))
      Method.pixel_count).1 = -(1/2) := by
    simp only [calculateCurrentAdjustment, pixelCountBranch, resultsOfPixelCount, hsat, hwsatp]
    norm_num [pixelLadderSat, finishAdjustment, globalHysteresis, clampAsym,
      oscillationAdjust, isOscillating, pushCap5, back, pyabs, pymin, pymax,
      freshEngineState]
  exact ⟨hsat, hsatp, hfin, by rw [hfin]; norm_num⟩

/-- Witness for C6: the 1-pixel all-255 image with weight 1. -/
theorem uniform255_pixel_count_decrease_witness :
    ([((255 : ℕ), (1 : ℚ))] ≠ ([] : List (ℕ × ℚ))) ∧
    (analyze_saturation_by_pixel_count false [(255, 1)] (49/50) 100).is_saturated = true ∧
    (calculateCurrentAdjustment freshEngineState
        (resultsOfPixelCount (analyze_saturation_by_pixel_count false [(255, 1)] (49/50) 100))
        Method.pixel_count).1 = -(1/2) := by
  have h := uniform255_pixel_count_decrease [(255, 1)] (by simp) (by decide)
    (by norm_num [totalWeight])
  exact ⟨by simp, h.1, h.2.2.1⟩

end LaserSpeckle

namespace LaserSpeckle

/-- Squared distance from grid pixel `(i, j)` to the center `(cy, cx)`:
`(y - center[0])**2 + (x - center[1])**2`, exact integer arithmetic. -/
def sqDist (cy cx : ℤ) (i j : ℕ) : ℤ := ((i : ℤ) - cy) ^ 2 + ((j : ℤ) - cx) ^ 2

lemma sqDist_nonneg (cy cx : ℤ) (i j : ℕ) : 0 ≤ sqDist cy cx i j :=
  add_nonneg (sq_nonneg _) (sq_nonneg _)

/-- `dist_from_center = np.sqrt(y_dist + x_dist)`. -/
noncomputable def distFromCenter (cy cx : ℤ) (i j : ℕ) : ℝ :=
  Real.sqrt ((sqDist cy cx i j : ℝ))

/-- The un-normalized squared-Gaussian analyzer field
(`histogram_saturation_analyzer.py` lines 88-91):
`np.exp(-0.5 * (dist/sigma)**2) ** 2`. -/
noncomputable def analyzerMaskRaw (cy cx : ℤ) (σ : ℝ) (i j : ℕ) : ℝ :=
  (Real.exp (-(1/2) * (distFromCenter cy cx i j / σ) ^ 2)) ^ 2

/-- The flattened list of values of a per-pixel real field over an
`hgt × wid` grid. -/
noncomputable def gridVals (hgt wid : ℕ) (f : ℕ → ℕ → ℝ) : List ℝ :=
  (List.range hgt).flatMap (fun i => (List.range wid).map (f i))

/-- `arr.max()` over the grid, as a fold of `max` seeded with 0 — for the
everywhere-positive fields built here this is the grid maximum. -/
noncomputable def gridMax (hgt wid : ℕ) (f : ℕ → ℕ → ℝ) : ℝ :=
  (gridVals hgt wid f).foldr max 0

/-- The normalized analyzer-variant weight mask
(`histogram_saturation_analyzer.py` line 94):
`weight_mask = weight_mask / weight_mask.max()`. -/
noncomputable def analyzerMask (hgt wid : ℕ) (cy cx : ℤ) (σ : ℝ) (i j : ℕ) : ℝ :=
  analyzerMaskRaw cy cx σ i j / gridMax hgt wid (analyzerMaskRaw cy cx σ)

/-- `create_radial_weight_mask(shape, center, sigma, flat_top_radius)` of
`updated_widget.py` (lines 1925-1976): works on squared distances; when a
positive flat-top radius is given, pixels with `squared_dist <=
flat_top_radius**2` get weight 1 and the rest get
`np.exp(-(squared_dist - flat_top_radius**2) / (2*sigma**2))`; otherwise the
plain Gaussian `np.exp(-squared_dist / (2*sigma**2))`.  This variant
performs no normalization before returning. -/
noncomputable def updatedMask (cy cx : ℤ) (σ : ℝ) (flatTopRadius : Option ℝ)
    (i j : ℕ) : ℝ :=
  match flatTopRadius with
  | some r =>
      if 0 < r then
        if ((sqDist cy cx i j : ℝ)) ≤ r ^ 2 then 1
        else Real.exp (-(((sqDist cy cx i j : ℝ)) - r ^ 2) / (2 * σ ^ 2))
      else Real.exp (-((sqDist cy cx i j : ℝ)) / (2 * σ ^ 2))
  | none => Real.exp (-((sqDist cy cx i j : ℝ)) / (2 * σ ^ 2))

/-- Modelled from the spec wording of C8 (for comparison only): weight 1
inside the flat-top radius, and
`exp(-0.5*((distance(p,center) - flat_top_radius)/sigma)^2)` beyond it. -/
noncomputable def specFlatTopWeight (cy cx : ℤ) (σ r : ℝ) (i j : ℕ) : ℝ :=
  if distFromCenter cy cx i j ≤ r then 1
  else Real.exp (-(1/2) * ((distFromCenter cy cx i j - r) / σ) ^ 2)

lemma analyzerMaskRaw_pos (cy cx : ℤ) (σ : ℝ) (i j : ℕ) :
    0 < analyzerMaskRaw cy cx σ i j :=
  pow_pos (Real.exp_pos _) 2

lemma mem_gridVals {hgt wid : ℕ} {f : ℕ → ℕ → ℝ} {i j : ℕ}
    (hi : i < hgt) (hj : j < wid) : f i j ∈ gridVals hgt wid f := by
  unfold gridVals
  rw [List.mem_flatMap]
  exact ⟨i, List.mem_range.mpr hi, List.mem_map.mpr ⟨j, List.mem_range.mpr hj, rfl⟩⟩

lemma le_foldr_max {l : List ℝ} {x : ℝ} (hx : x ∈ l) : x ≤ l.foldr max 0 := by
  induction l with
  | nil => cases hx
  | cons a t ih =>
      rcases List.mem_cons.mp hx with rfl | h
      · exact le_max_left _ _
      · exact le_trans (ih h) (le_max_right _ _)

lemma foldr_max_div (l : List ℝ) (c : ℝ) (hc : 0 < c) :
    (l.map (fun x => x / c)).foldr max 0 = (l.foldr max 0) / c := by
  induction l with
  | nil => simp
  | cons a t ih =>
      simp only [List.map_cons, List.foldr_cons, ih]
      rw [max_div_div_right hc.le]

lemma gridVals_div (hgt wid : ℕ) (f : ℕ → ℕ → ℝ) (c : ℝ) :
    gridVals hgt wid (fun i j => f i j / c) = (gridVals hgt wid f).map (fun x => x / c) := by
  unfold gridVals
  rw [List.map_flatMap]
  simp only [List.map_map]
  rfl

lemma gridMax_raw_pos (hgt wid : ℕ) (cy cx : ℤ) (σ : ℝ) (hh : 1 ≤ hgt) (hw : 1 ≤ wid) :
    0 < gridMax hgt wid (analyzerMaskRaw cy cx σ) :=
  lt_of_lt_of_le (analyzerMaskRaw_pos cy cx σ 0 0)
    (le_foldr_max (mem_gridVals hh hw))

/-- C7 (amended): the squared-Gaussian analyzer variant is normalized by its
grid maximum, so on a nonempty grid every value lies in `(0, 1]` and the
maximum equals exactly 1; the flat-top variant of `updated_widget.py`
performs no normalization — its values always lie in `(0, 1]`, but its
maximum need not be 1. -/
theorem weight_mask_normalization (hgt wid : ℕ) (cy cx : ℤ) (σ : ℝ)
    (hh : 1 ≤ hgt) (hw : 1 ≤ wid) :
    (∀ i j, i < hgt → j < wid →
       0 < analyzerMask hgt wid cy cx σ i j ∧ analyzerMask hgt wid cy cx σ i j ≤ 1) ∧
    gridMax hgt wid (analyzerMask hgt wid cy cx σ) = 1 ∧
    (∀ r i j, 0 < updatedMask cy cx σ r i j ∧ updatedMask cy cx σ r i j ≤ 1) := by
  have hM : 0 < gridMax hgt wid (analyzerMaskRaw cy cx σ) := gridMax_raw_pos hgt wid cy cx σ hh hw
  refine ⟨?_, ?_, ?_⟩
  · intro i j hi hj
    constructor
    · exact div_pos (analyzerMaskRaw_pos cy cx σ i j) hM
    · exact (div_le_one hM).mpr (le_foldr_max (mem_gridVals hi hj))
  · have hrw : gridVals hgt wid (analyzerMask hgt wid cy cx σ) =
        (gridVals hgt wid (analyzerMaskRaw cy cx σ)).map
          (fun x => x / gridMax hgt wid (analyzerMaskRaw cy cx σ)) :=
      gridVals_div hgt wid (analyzerMaskRaw cy cx σ)
        (gridMax hgt wid (analyzerMaskRaw cy cx σ))
    calc gridMax hgt wid (analyzerMask hgt wid cy cx σ)
        = (gridVals hgt wid (analyzerMask hgt wid cy cx σ)).foldr max 0 := rfl
      _ = ((gridVals hgt wid (analyzerMaskRaw cy cx σ)).map
            (fun x => x / gridMax hgt wid (analyzerMaskRaw cy cx σ))).foldr max 0 := by
          rw [hrw]
      _ = ((gridVals hgt wid (analyzerMaskRaw cy cx σ)).foldr max 0) /
            gridMax hgt wid (analyzerMaskRaw cy cx σ) := foldr_max_div _ _ hM
      _ = 1 := div_self (ne_of_gt hM)
  · intro r i j
    have hsd : (0 : ℝ) ≤ ((sqDist cy cx i j : ℤ) : ℝ) := by
      exact_mod_cast sqDist_nonneg cy cx i j
    have hexp_le_one : ∀ y : ℝ, y ≤ 0 → Real.exp y ≤ 1 := by
      intro y hy
      calc Real.exp y ≤ Real.exp 0 := Real.exp_le_exp.mpr hy
        _ = 1 := Real.exp_zero
    cases r with
    | none =>
        simp only [updatedMask]
        refine ⟨Real.exp_pos _, hexp_le_one _ ?_⟩
        rw [neg_div]
        exact neg_nonpos.mpr (div_nonneg hsd (by positivity))
    | some rv =>
        simp only [updatedMask]
        split_ifs with hpos hin
        · exact ⟨one_pos, le_refl 1⟩
        · refine ⟨Real.exp_pos _, hexp_le_one _ ?_⟩
          rw [neg_div]
          push_neg at hin
          exact neg_nonpos.mpr (div_nonneg (by linarith) (by positivity))
        · refine ⟨Real.exp_pos _, hexp_le_one _ ?_⟩
          rw [neg_div]
          exact neg_nonpos.mpr (div_nonneg hsd (by positivity))

/-- Witness for C7's amended statement: 1×1 grid, center (0,0), sigma 1. -/
theorem weight_mask_normalization_witness :
    gridMax 1 1 (analyzerMask 1 1 0 0 1) = 1 ∧
    0 < updatedMask 0 0 1 (some 1) 0 0 := by
  have h := weight_mask_normalization 1 1 0 0 1 (le_refl 1) (le_refl 1)
  exact ⟨h.2.1, (h.2.2 (some 1) 0 0).1⟩

/-- C7 counterexample: the flat-top variant (`updated_widget.py`) is not
normalized.  On a 1×1 image with center `(0, 1)` (one pixel away from the
grid) and sigma 1, the single mask value — hence the mask's maximum — is
`exp(-1/2) ≈ 0.607`, not 1. -/
theorem flat_top_variant_not_normalized :
    gridMax 1 1 (updatedMask 0 1 1 none) = Real.exp (-(1/2)) ∧
    gridMax 1 1 (updatedMask 0 1 1 none) ≠ 1 := by
  have hval : updatedMask 0 1 1 none 0 0 = Real.exp (-(1/2)) := by
    unfold updatedMask
    norm_num [sqDist]
  have hgrid : gridVals 1 1 (updatedMask 0 1 1 none) = [updatedMask 0 1 1 none 0 0] := by
    unfold gridVals
    rfl
  have hmax : gridMax 1 1 (updatedMask 0 1 1 none) = Real.exp (-(1/2)) := by
    unfold gridMax
    rw [hgrid, hval]
    simp only [List.foldr_cons, List.foldr_nil]
    exact max_eq_left (Real.exp_pos _).le
  refine ⟨hmax, ?_⟩
  rw [hmax]
  have : Real.exp (-(1/2)) < 1 := by
    calc Real.exp (-(1/2)) < Real.exp 0 := Real.exp_lt_exp.mpr (by norm_num)
      _ = 1 := Real.exp_zero
  exact ne_of_lt this

end LaserSpeckle

namespace LaserSpeckle

/-- C8 counterexample: with center (0,0), sigma 1 and flat-top radius 1, the
pixel at distance 2 gets weight `exp(-(2² - 1²)/2) = exp(-3/2)` from the
code, while the claimed formula gives `exp(-0.5·((2-1)/1)²) = exp(-1/2)`;
the two differ — the code's falloff is Gaussian in the squared distance
offset by `r²`, not in the distance offset by `r`. -/
theorem flat_top_formula_claim_false :
    updatedMask 0 0 1 (some 1) 0 2 = Real.exp (-(3/2)) ∧
    specFlatTopWeight 0 0 1 1 0 2 = Real.exp (-(1/2)) ∧
    updatedMask 0 0 1 (some 1) 0 2 ≠ specFlatTopWeight 0 0 1 1 0 2 := by
  have hd : distFromCenter 0 0 0 2 = 2 := by
    unfold distFromCenter
    rw [show ((sqDist 0 0 0 2 : ℤ) : ℝ) = 4 by norm_num [sqDist]]
    rw [show (4 : ℝ) = 2 ^ 2 by norm_num, Real.sqrt_sq (by norm_num)]
  have h1 : updatedMask 0 0 1 (some 1) 0 2 = Real.exp (-(3/2)) := by
    simp only [updatedMask]
    rw [if_pos one_pos, if_neg (by norm_num [sqDist])]
    congr 1
    norm_num [sqDist]
  have h2 : specFlatTopWeight 0 0 1 1 0 2 = Real.exp (-(1/2)) := by
    unfold specFlatTopWeight
    rw [if_neg (by rw [hd]; norm_num)]
    rw [hd]
    congr 1
    norm_num
  refine ⟨h1, h2, ?_⟩
  rw [h1, h2]
  exact ne_of_lt (Real.exp_lt_exp.mpr (by norm_num))

/-- C8 (amended): for a positive flat-top radius, a pixel within distance
`r` of the center gets weight exactly 1 (the code tests
`squared_dist ≤ r²`, equivalent to `distance ≤ r`); a pixel beyond it gets
`exp(-(distance² - r²)/(2σ²))` — a Gaussian falloff in the squared-distance
offset, not in `(distance - r)`; and with no flat-top radius the weight is
the plain Gaussian `exp(-0.5·(distance/σ)²)` (which coincides with the
claimed formula at radius 0). -/
theorem flat_top_mask_formula (cy cx : ℤ) (σ r : ℝ) (i j : ℕ) (hr : 0 < r) :
    (distFromCenter cy cx i j ≤ r → updatedMask cy cx σ (some r) i j = 1) ∧
    (r < distFromCenter cy cx i j →
       updatedMask cy cx σ (some r) i j =
         Real.exp (-(distFromCenter cy cx i j ^ 2 - r ^ 2) / (2 * σ ^ 2))) ∧
    updatedMask cy cx σ none i j =
      Real.exp (-(1/2) * (distFromCenter cy cx i j / σ) ^ 2) := by
  have hsd : (0 : ℝ) ≤ ((sqDist cy cx i j : ℤ) : ℝ) := by
    exact_mod_cast sqDist_nonneg cy cx i j
  have hd2 : distFromCenter cy cx i j ^ 2 = ((sqDist cy cx i j : ℤ) : ℝ) :=
    Real.sq_sqrt hsd
  refine ⟨?_, ?_, ?_⟩
  · intro hle
    have hin : ((sqDist cy cx i j : ℤ) : ℝ) ≤ r ^ 2 := by
      rw [← hd2]
      exact pow_le_pow_left (Real.sqrt_nonneg _) hle 2
    simp only [updatedMask]
    rw [if_pos hr, if_pos hin]
  · intro hlt
    have hout : ¬((sqDist cy cx i j : ℤ) : ℝ) ≤ r ^ 2 := by
      rw [← hd2]
      exact not_le.mpr (pow_lt_pow_left hlt hr.le (by norm_num))
    simp only [updatedMask]
    rw [if_pos hr, if_neg hout]
    rw [hd2]
  · simp only [updatedMask]
    congr 1
    rw [div_pow, hd2]
    ring

/-- Witness for C8's amended statement: center (0,0), sigma 1, radius 1 and
the pixel (0,2) at distance 2, where the falloff branch applies. -/
theorem flat_top_mask_formula_witness :
    updatedMask 0 0 1 (some 1) 0 2 =
      Real.exp (-(distFromCenter 0 0 0 2 ^ 2 - 1 ^ 2) / (2 * 1 ^ 2)) := by
  have hd : distFromCenter 0 0 0 2 = 2 := by
    unfold distFromCenter
    rw [show ((sqDist 0 0 0 2 : ℤ) : ℝ) = 4 by norm_num [sqDist]]
    rw [show (4 : ℝ) = 2 ^ 2 by norm_num, Real.sqrt_sq (by norm_num)]
  exact (flat_top_mask_formula 0 0 1 1 0 2 one_pos).2.1 (by rw [hd]; norm_num)

/-- C9: a weight field built by the flat-top variant with
`flat_top_radius = 0` is exactly (not merely within tolerance) the field
built with no flat-top radius, and both equal the plain Gaussian
`exp(-0.5·(distance/σ)²)` of the same center and sigma: the flat-top branch
requires a strictly positive radius, so radius 0 takes the plain branch. -/
theorem flat_top_zero_radius_matches_gaussian (cy cx : ℤ) (σ : ℝ) (i j : ℕ) :
    updatedMask cy cx σ (some 0) i j = updatedMask cy cx σ none i j ∧
    updatedMask cy cx σ (some 0) i j =
      Real.exp (-(1/2) * (distFromCenter cy cx i j / σ) ^ 2) := by
  have hsd : (0 : ℝ) ≤ ((sqDist cy cx i j : ℤ) : ℝ) := by
    exact_mod_cast sqDist_nonneg cy cx i j
  have hd2 : distFromCenter cy cx i j ^ 2 = ((sqDist cy cx i j : ℤ) : ℝ) :=
    Real.sq_sqrt hsd
  have h0 : updatedMask cy cx σ (some 0) i j =
      Real.exp (-((sqDist cy cx i j : ℤ) : ℝ) / (2 * σ ^ 2)) := by
    simp only [updatedMask]
    rw [if_neg (lt_irrefl 0)]
  constructor
  · rw [h0]
    rfl
  · rw [h0]
    congr 1
    rw [div_pow, hd2]
    ring

end LaserSpeckle

namespace LaserSpeckle

/-- `np.pad(img, half_window, mode='reflect')` index arithmetic: the index
`i` (possibly out of `[0, n)`) of the padded array maps back to the source
index by boundary reflection without repeating the edge sample; a
single-sample axis repeats its sample.  The general form folds `i` into
`[0, n)` with period `2n - 2`. -/
def reflectIdx (n : ℕ) (i : ℤ) : ℕ :=
  if n ≤ 1 then 0
  else if i % (2 * (n : ℤ) - 2) ≤ (n : ℤ) - 1 then (i % (2 * (n : ℤ) - 2)).toNat
  else ((2 * (n : ℤ) - 2) - i % (2 * (n : ℤ) - 2)).toNat

lemma reflectIdx_lt (n : ℕ) (hn : 1 ≤ n) (i : ℤ) : reflectIdx n i < n := by
  unfold reflectIdx
  split_ifs with h1 h2
  · omega
  · have hp : (0 : ℤ) < 2 * (n : ℤ) - 2 := by omega
    have hj0 : 0 ≤ i % (2 * (n : ℤ) - 2) := Int.emod_nonneg i (ne_of_gt hp)
    omega
  · have hp : (0 : ℤ) < 2 * (n : ℤ) - 2 := by omega
    have hj0 : 0 ≤ i % (2 * (n : ℤ) - 2) := Int.emod_nonneg i (ne_of_gt hp)
    have hjlt : i % (2 * (n : ℤ) - 2) < 2 * (n : ℤ) - 2 := Int.emod_lt_of_pos i hp
    omega

/-- The flattened list of values of a per-pixel rational field over an
`hgt × wid` grid. -/
def gridValsQ (hgt wid : ℕ) (f : ℕ → ℕ → ℚ) : List ℚ :=
  (List.range hgt).flatMap (fun i => (List.range wid).map (f i))

/-- Sum of a rational field over the grid (`np.sum`). -/
def gridSum (hgt wid : ℕ) (f : ℕ → ℕ → ℚ) : ℚ := (gridValsQ hgt wid f).sum

lemma mem_gridValsQ {hgt wid : ℕ} {f : ℕ → ℕ → ℚ} {v : ℚ}
    (hv : v ∈ gridValsQ hgt wid f) : ∃ i j, i < hgt ∧ j < wid ∧ f i j = v := by
  unfold gridValsQ at hv
  rw [List.mem_flatMap] at hv
  obtain ⟨i, hi, hv⟩ := hv
  rw [List.mem_map] at hv
  obtain ⟨j, hj, rfl⟩ := hv
  exact ⟨i, j, List.mem_range.mp hi, List.mem_range.mp hj, rfl⟩

lemma gridSum_zero (hgt wid : ℕ) (f : ℕ → ℕ → ℚ)
    (h : ∀ i j, i < hgt → j < wid → f i j = 0) : gridSum hgt wid f = 0 := by
  unfold gridSum
  apply List.sum_eq_zero
  intro v hv
  obtain ⟨i, j, hi, hj, hf⟩ := mem_gridValsQ hv
  rw [← hf]
  exact h i j hi hj

/-- Entry `(dy, dx)` of the window `padded_img[y:y+window_size,
x:x+window_size]` (`contrast_analyzer.py` line 148): padded coordinate
`y + dy` maps to source row `y + dy - half_window` through the reflect
padding, and likewise for columns. -/
def windowVal (hgt wid : ℕ) (img : ℕ → ℕ → ℚ) (ws y x dy dx : ℕ) : ℚ :=
  img (reflectIdx hgt ((y : ℤ) + (dy : ℤ) - ((ws / 2 : ℕ) : ℤ)))
      (reflectIdx wid ((x : ℤ) + (dx : ℤ) - ((ws / 2 : ℕ) : ℤ)))

/-- The `window_size × window_size` window at output pixel `(y, x)`,
flattened. -/
def windowList (hgt wid : ℕ) (img : ℕ → ℕ → ℚ) (ws y x : ℕ) : List ℚ :=
  (List.range ws).flatMap
    (fun dy => (List.range ws).map (fun dx => windowVal hgt wid img ws y x dy dx))

/-- `local_mean = np.mean(window)` (`contrast_analyzer.py` line 151). -/
def localMean (hgt wid : ℕ) (img : ℕ → ℕ → ℚ) (ws y x : ℕ) : ℚ :=
  (windowList hgt wid img ws y x).sum / ((ws * ws : ℕ) : ℚ)

/-- The population variance of the window: `np.std(window)` is its square
root. -/
def localVariance (hgt wid : ℕ) (img : ℕ → ℕ → ℚ) (ws y x : ℕ) : ℚ :=
  ((windowList hgt wid img ws y x).map
    (fun v => (v - localMean hgt wid img ws y x) ^ 2)).sum / ((ws * ws : ℕ) : ℚ)

/-- One entry of the local contrast map (`contrast_analyzer.py` lines
150-156): `local_std / local_mean` when `local_mean > 0`, else 0.  The
square root inside `np.std` is abstracted by the parameter `sqrtFn`; no
claim below depends on its values. -/
def contrastMapEntry (sqrtFn : ℚ → ℚ) (hgt wid : ℕ) (img : ℕ → ℕ → ℚ)
    (ws y x : ℕ) : ℚ :=
  if 0 < localMean hgt wid img ws y x then
    sqrtFn (localVariance hgt wid img ws y x) / localMean hgt wid img ws y x
  else 0

/-- `weighted_mean = np.average(flat_img, weights=flat_weights)`
(`contrast_analyzer.py` line 127). -/
def contrastWeightedMean (hgt wid : ℕ) (img wt : ℕ → ℕ → ℚ) : ℚ :=
  gridSum hgt wid (fun i j => img i j * wt i j) / gridSum hgt wid wt

/-- `weighted_variance = np.average((flat_img - weighted_mean)**2,
weights=flat_weights)` (`contrast_analyzer.py` line 130). -/
def contrastWeightedVariance (hgt wid : ℕ) (img wt : ℕ → ℕ → ℚ) : ℚ :=
  gridSum hgt wid
    (fun i j => (img i j - contrastWeightedMean hgt wid img wt) ^ 2 * wt i j) /
    gridSum hgt wid wt

/-- The contrast report, restricted to the aggregate fields the claims
read (the band percentages, median, and visualisation maps of the Python
dictionary are omitted; the contrast map itself is exposed as
`contrastMapEntry`). -/
structure ContrastReport where
  global_contrast : ℚ
  mean_contrast : ℚ
  weighted_mean_contrast : ℚ
  deriving Repr, DecidableEq

/-- `analyze_contrast(img, window_size=7)` (`contrast_analyzer.py` lines
98-238): `global_contrast = weighted_std / weighted_mean if weighted_mean >
0 else 0` (line 134); `mean_contrast = np.mean(contrast_map)` (line 162);
`weighted_mean_contrast = np.average(contrast_map.flatten(),
weights=flat_weights)` (line 164). -/
def analyze_contrast (sqrtFn : ℚ → ℚ) (hgt wid : ℕ) (img wt : ℕ → ℕ → ℚ)
    (ws : ℕ) : ContrastReport :=
  let wm := contrastWeightedMean hgt wid img wt
  { global_contrast :=
      if 0 < wm then sqrtFn (contrastWeightedVariance hgt wid img wt) / wm else 0,
    mean_contrast :=
      gridSum hgt wid (fun y x => contrastMapEntry sqrtFn hgt wid img ws y x) /
        ((hgt * wid : ℕ) : ℚ),
    weighted_mean_contrast :=
      gridSum hgt wid (fun y x => contrastMapEntry sqrtFn hgt wid img ws y x * wt y x) /
        gridSum hgt wid wt }

lemma windowList_zero (hgt wid : ℕ) (img : ℕ → ℕ → ℚ) (ws y x : ℕ)
    (hh : 1 ≤ hgt) (hw : 1 ≤ wid)
    (hz : ∀ i j, i < hgt → j < wid → img i j = 0) :
    ∀ v ∈ windowList hgt wid img ws y x, v = 0 := by
  intro v hv
  unfold windowList at hv
  rw [List.mem_flatMap] at hv
  obtain ⟨dy, _, hv⟩ := hv
  rw [List.mem_map] at hv
  obtain ⟨dx, _, rfl⟩ := hv
  unfold windowVal
  exact hz _ _ (reflectIdx_lt hgt hh _) (reflectIdx_lt wid hw _)

/-- C10: for every (non-negative) image and weight field with positive
total weight, the contrast estimator never divides by zero — whatever the
square-root routine does: a zero weighted global mean yields
`global_contrast = 0` by the guard at line 134, a window with zero local
mean yields local contrast 0 by the guard at lines 152-156, and an all-zero
image yields a report whose global contrast, every contrast-map entry, mean
contrast and weighted mean contrast are all 0 rather than a failure. -/
theorem contrast_zero_mean_guards (sqrtFn : ℚ → ℚ) (hgt wid ws : ℕ)
    (img wt : ℕ → ℕ → ℚ) (hh : 1 ≤ hgt) (hw : 1 ≤ wid)
    (hImg : ∀ i j, 0 ≤ img i j) (hW : 0 < gridSum hgt wid wt) :
    (contrastWeightedMean hgt wid img wt = 0 →
       (analyze_contrast sqrtFn hgt wid img wt ws).global_contrast = 0) ∧
    (∀ y x, localMean hgt wid img ws y x = 0 →
       contrastMapEntry sqrtFn hgt wid img ws y x = 0) ∧
    ((∀ i j, i < hgt → j < wid → img i j = 0) →
       (analyze_contrast sqrtFn hgt wid img wt ws).global_contrast = 0 ∧
       (∀ y x, contrastMapEntry sqrtFn hgt wid img ws y x = 0) ∧
       (analyze_contrast sqrtFn hgt wid img wt ws).mean_contrast = 0 ∧
       (analyze_contrast sqrtFn hgt wid img wt ws).weighted_mean_contrast = 0) := by
  have hglobal : contrastWeightedMean hgt wid img wt = 0 →
      (analyze_contrast sqrtFn hgt wid img wt ws).global_contrast = 0 := by
    intro h0
    simp only [analyze_contrast]
    rw [h0, if_neg (lt_irrefl 0)]
  have hlocal : ∀ y x, localMean hgt wid img ws y x = 0 →
      contrastMapEntry sqrtFn hgt wid img ws y x = 0 := by
    intro y x hm
    unfold contrastMapEntry
    rw [hm, if_neg (lt_irrefl 0)]
  refine ⟨hglobal, hlocal, ?_⟩
  intro hz
  have hwm : contrastWeightedMean hgt wid img wt = 0 := by
    unfold contrastWeightedMean
    rw [gridSum_zero hgt wid _ (fun i j hi hj => by rw [hz i j hi hj, zero_mul]), zero_div]
  have hcm : ∀ y x, contrastMapEntry sqrtFn hgt wid img ws y x = 0 := by
    intro y x
    apply hlocal
    unfold localMean
    rw [List.sum_eq_zero (windowList_zero hgt wid img ws y x hh hw hz), zero_div]
  refine ⟨hglobal hwm, hcm, ?_, ?_⟩
  · simp only [analyze_contrast]
    rw [gridSum_zero hgt wid _ (fun y x _ _ => hcm y x), zero_div]
  · simp only [analyze_contrast]
    rw [gridSum_zero hgt wid _ (fun y x _ _ => by rw [hcm y x, zero_mul]), zero_div]

/-- Witness for C10: the 1×1 all-zero image with unit weight and the
default 7×7 window, the square root abstracted by the identity. -/
theorem contrast_zero_mean_guards_witness :
    (analyze_contrast id 1 1 (fun _ _ => 0) (fun _ _ => 1) 7).global_contrast = 0 ∧
    contrastMapEntry id 1 1 (fun _ _ => 0) 7 0 0 = 0 ∧
    (analyze_contrast id 1 1 (fun _ _ => 0) (fun _ _ => 1) 7).mean_contrast = 0 := by
  have h := contrast_zero_mean_guards id 1 1 7 (fun _ _ => 0) (fun _ _ => 1)
    (le_refl 1) (le_refl 1) (fun _ _ => le_refl 0)
    (by rw [show gridSum 1 1 (fun _ _ => (1:ℚ)) = ([1] : List ℚ).sum from rfl,
          List.sum_singleton]
        norm_num)
  have h3 := h.2.2 (fun _ _ _ _ => rfl)
  exact ⟨h3.1, h3.2.1 0 0, h3.2.2.1⟩

end LaserSpeckle
